import Mathlib

/-!
Shallow embedding of the public handle API of `src/libewf/libewf_file.c`
(libewf).  The `LIBEWF_INTERNAL_HANDLE` structure and its `media` / `read` /
`write` sub-handles are modelled with exactly the fields that
`libewf_file.c` touches; C pointers that may be NULL become `Option`,
unsigned machine integers become `Nat`, signed 64-bit offsets become `Int`
(the functions below reproduce the source's explicit range guards, so no
wrap-around arithmetic occurs on the modelled paths).  Each public function
returns its C `int`/`off64_t` result paired with the updated handle, so
that "state unchanged on failure" claims are directly expressible.
-/

/-- The constant `INT32_MAX` as used by the guards in `libewf_file.c`. -/
def INT32_MAX : Nat := 2147483647

/-- The constant `INT64_MAX` as used by the guards in `libewf_file.c`. -/
def INT64_MAX : Nat := 9223372036854775807

/-- Modelled from the spec: `EWF_DIGEST_HASH_SIZE_MD5` (header `ewf_digest_hash.h`
is not under `src/`); the MD5 hash is a 16-byte value (spec section 4.1, `hash`
section payload: "16-byte MD5"). -/
def EWF_DIGEST_HASH_SIZE_MD5 : Nat := 16

/-- Modelled from the spec: the read flag bit accepted by `libewf_open`
(`libewf_definitions.h` is not under `src/`). -/
def LIBEWF_FLAG_READ : Nat := 1

/-- Modelled from the spec: the write flag bit accepted by `libewf_open`
(`libewf_definitions.h` is not under `src/`). -/
def LIBEWF_FLAG_WRITE : Nat := 2

/-- Modelled from the spec: volume type constant for a logical volume
(`libewf_definitions.h` is not under `src/`). -/
def LIBEWF_VOLUME_TYPE_LOGICAL : Nat := 0

/-- Modelled from the spec: volume type constant for a physical volume
(`libewf_definitions.h` is not under `src/`). -/
def LIBEWF_VOLUME_TYPE_PHYSICAL : Nat := 1

/-- Modelled from the spec: media-flags bit marking a physical volume
(`ewf_definitions.h` is not under `src/`).  The value 0x02 is fixed by
`libewf_get_volume_type` in `src/libewf/libewf_file.c`, which tests
`media_flags & 0x02`, and by the spec note on bit `0x02` of `media_flags`. -/
def EWF_MEDIA_FLAGS_IS_PHYSICAL : Nat := 2

/-- Modelled from the spec: format constant for EnCase2
(`libewf_definitions.h` is not under `src/`). -/
def LIBEWF_FORMAT_ENCASE2 : Nat := 2

/-- Modelled from the spec: format constant for EnCase3
(`libewf_definitions.h` is not under `src/`). -/
def LIBEWF_FORMAT_ENCASE3 : Nat := 3

/-- Modelled from the spec: the fixed index of the acquiry software version
entry inside a header values table (`libewf_header_values.h` is not under
`src/`); only its existence as one fixed index matters to the claims. -/
def LIBEWF_HEADER_VALUES_INDEX_ACQUIRY_SOFTWARE_VERSION : Nat := 6

/-- One entry of a sector-error list (`LIBEWF_ERROR_SECTOR`): a start sector
and the amount of sectors, as used by `libewf_add_acquiry_error` and
`libewf_add_crc_error`. -/
structure ErrorSector where
  sector : Int
  amount_of_sectors : Nat
deriving DecidableEq, Repr

/-- The media sub-handle (`internal_handle->media`) with the fields that
`libewf_file.c` reads and writes. -/
structure MediaValues where
  sectors_per_chunk : Nat
  bytes_per_sector : Nat
  amount_of_sectors : Nat
  chunk_size : Nat
  error_granularity : Nat
  media_size : Nat
  media_type : Nat
  media_flags : Nat
deriving DecidableEq, Repr

/-- The read sub-handle (`internal_handle->read`): the CRC error list, its
count, and the wipe-on-error flag. -/
structure ReadValues where
  crc_error_sectors : Option (List ErrorSector)
  crc_amount_of_errors : Nat
  wipe_on_error : Nat
deriving DecidableEq, Repr

/-- The write sub-handle (`internal_handle->write`) with the fields that
`libewf_file.c` reads and writes. -/
structure WriteValues where
  values_initialized : Nat
  write_finalized : Nat
  segment_file_size : Nat
  input_write_size : Nat
  compress_empty_block : Nat
  amount_of_chunks : Nat
deriving DecidableEq, Repr

/-- A header values table (`LIBEWF_VALUES_TABLE`): an amount and an array of
optional NUL-terminated strings, modelled as optional character lists. -/
structure ValuesTable where
  amount : Nat
  values : List (Option (List Char))
deriving DecidableEq, Repr

/-- The structure `LIBEWF_INTERNAL_HANDLE` with the fields touched by `libewf_file.c`.
`current_chunk` is the chunk position kept on the handle by
`libewf_segment_file_seek_chunk_offset` (spec section 4.4: seek stores the
resolved chunk on the handle). -/
structure InternalHandle where
  media : Option MediaValues
  read : Option ReadValues
  write : Option WriteValues
  format : Nat
  compression_level : Int
  guid : List Nat
  md5_hash : List Nat
  md5_hash_set : Nat
  acquiry_error_sectors : Option (List ErrorSector)
  acquiry_amount_of_errors : Nat
  header_values : Option ValuesTable
  xheader : Option (List Nat)
  xheader_size : Nat
  header2 : Option (List Nat)
  header2_size : Nat
  header : Option (List Nat)
  header_size : Nat
  current_chunk : Nat
  current_chunk_offset : Nat
deriving DecidableEq, Repr

/-- Embedding of `libewf_open` (src/libewf/libewf_file.c:144): the argument validation
performed before any handle is created.  `body` stands for the result of the
allocation and segment-file open that follow the three guards; those live in
`libewf_internal_handle.c` / `libewf_segment_file.c`, which are not under
`src/`, so the successful tail is abstracted as a parameter.  The three
guards are translated literally from the source. -/
def libewf_open (filenames : Option (List (List Char))) (file_amount : Nat)
    (flags : Nat) (body : Option InternalHandle) : Option InternalHandle :=
  match filenames with
  | none => none
  | some _ =>
    if file_amount < 1 then
      none
    else if flags &&& LIBEWF_FLAG_READ ≠ LIBEWF_FLAG_READ
        ∧ flags &&& LIBEWF_FLAG_WRITE ≠ LIBEWF_FLAG_WRITE then
      none
    else
      body

/-- Modelled from the spec: `libewf_segment_file_seek_chunk_offset`
(`libewf_segment_file.c`, not under `src/`).  Spec section 4.4: "Seek
resolves `chunk = off / chunk_size` and `intra = off % chunk_size`; both
stored on handle" — the function stores the requested chunk number on the
handle and succeeds. -/
def libewf_segment_file_seek_chunk_offset (ih : InternalHandle) (chunk : Nat) :
    Int × InternalHandle :=
  (1, { ih with current_chunk := chunk })

/-- Embedding of `libewf_seek_offset` (src/libewf/libewf_file.c:280): validates the handle,
the media sub-handle and the offset range, resolves the chunk number and the
intra-chunk offset, and stores both on the handle. -/
def libewf_seek_offset (handle : Option InternalHandle) (offset : Int) :
    Int × Option InternalHandle :=
  match handle with
  | none => (-1, none)
  | some ih =>
    match ih.media with
    | none => (-1, some ih)
    | some media =>
      if offset ≤ -1 then
        (-1, some ih)
      else if offset ≥ (media.media_size : Int) then
        (-1, some ih)
      else
        let chunk : Nat := offset.toNat / media.chunk_size
        if chunk ≥ INT32_MAX then
          (-1, some ih)
        else
          let r := libewf_segment_file_seek_chunk_offset ih chunk
          if r.1 = -1 then
            (-1, some r.2)
          else
            let chunk_offset : Nat := offset.toNat % media.chunk_size
            if chunk_offset ≥ INT32_MAX then
              (-1, some r.2)
            else
              (offset, some { r.2 with current_chunk_offset := chunk_offset })

/-- The externally observable steps taken by `libewf_close`.  The bodies of
`libewf_write_finalize` and `libewf_segment_file_close_all` live in
`libewf_write.c` / `libewf_segment_file.c`, which are not under `src/`, so
they are recorded as trace events; `close_all_ok` abstracts whether closing
all segment files succeeds. -/
inductive CloseEvent where
  | write_finalize
  | close_segment_files
  | free_handle
deriving DecidableEq, Repr

/-- Embedding of `libewf_close` (src/libewf/libewf_file.c:242): finalizes the write when a
write sub-handle exists and the write was not yet finalized, then closes all
segment files and frees the handle; returns 0 on success and -1 when the
handle is NULL or closing the segment files fails. -/
def libewf_close (handle : Option InternalHandle) (close_all_ok : Bool) :
    Int × List CloseEvent :=
  match handle with
  | none => (-1, [])
  | some ih =>
    let finalize_trace : List CloseEvent :=
      match ih.write with
      | some w => if w.write_finalized = 0 then [CloseEvent.write_finalize] else []
      | none => []
    if close_all_ok then
      (0, finalize_trace ++ [CloseEvent.close_segment_files, CloseEvent.free_handle])
    else
      (-1, finalize_trace ++ [CloseEvent.close_segment_files])

/-- Embedding of `libewf_set_sectors_per_chunk` (src/libewf/libewf_file.c:1376). -/
def libewf_set_sectors_per_chunk (ih : InternalHandle) (sectors_per_chunk : Nat) :
    Int × InternalHandle :=
  match ih.media with
  | none => (-1, ih)
  | some media =>
    if sectors_per_chunk = 0 ∨ sectors_per_chunk > INT32_MAX then
      (-1, ih)
    else
      match ih.write with
      | none => (-1, ih)
      | some w =>
        if w.values_initialized ≠ 0 then
          (-1, ih)
        else
          (1, { ih with media := some { media with sectors_per_chunk := sectors_per_chunk } })

/-- Embedding of `libewf_set_bytes_per_sector` (src/libewf/libewf_file.c:1421). -/
def libewf_set_bytes_per_sector (ih : InternalHandle) (bytes_per_sector : Nat) :
    Int × InternalHandle :=
  match ih.media with
  | none => (-1, ih)
  | some media =>
    if bytes_per_sector = 0 ∨ bytes_per_sector > INT32_MAX then
      (-1, ih)
    else
      match ih.write with
      | none => (-1, ih)
      | some w =>
        if w.values_initialized ≠ 0 then
          (-1, ih)
        else
          (1, { ih with media := some { media with bytes_per_sector := bytes_per_sector } })

/-- Embedding of `libewf_set_guid` (src/libewf/libewf_file.c:1466): rejects a NULL buffer
and a size below 16; rejects the call only when a write sub-handle exists
whose values are initialized; otherwise copies 16 bytes into the handle. -/
def libewf_set_guid (ih : InternalHandle) (guid : Option (List Nat)) (size : Nat) :
    Int × InternalHandle :=
  match guid with
  | none => (-1, ih)
  | some buffer =>
    if size < 16 then
      (-1, ih)
    else
      match ih.write with
      | some w =>
        if w.values_initialized ≠ 0 then
          (-1, ih)
        else
          (1, { ih with guid := buffer.take 16 })
      | none => (1, { ih with guid := buffer.take 16 })

/-- Embedding of `libewf_set_md5_hash` (src/libewf/libewf_file.c:1515): rejects a NULL
buffer, a size below 16, and a handle whose MD5 hash was already set;
otherwise copies 16 bytes and raises the `md5_hash_set` flag. -/
def libewf_set_md5_hash (ih : InternalHandle) (md5_hash : Option (List Nat)) (size : Nat) :
    Int × InternalHandle :=
  match md5_hash with
  | none => (-1, ih)
  | some buffer =>
    if size < EWF_DIGEST_HASH_SIZE_MD5 then
      (-1, ih)
    else if ih.md5_hash_set ≠ 0 then
      (-1, ih)
    else
      (1, { ih with md5_hash := buffer.take 16, md5_hash_set := 1 })

/-- Embedding of `libewf_set_write_segment_file_size` (src/libewf/libewf_file.c:1639). -/
def libewf_set_write_segment_file_size (ih : InternalHandle) (segment_file_size : Nat) :
    Int × InternalHandle :=
  match ih.write with
  | none => (-1, ih)
  | some w =>
    if w.values_initialized ≠ 0 then
      (-1, ih)
    else if segment_file_size = 0 ∨ segment_file_size > INT64_MAX then
      (-1, ih)
    else
      (1, { ih with write := some { w with segment_file_size := segment_file_size } })

/-- Embedding of `libewf_set_write_media_type` (src/libewf/libewf_file.c:1755): stores the
media type on the media sub-handle, then dispatches on the volume type to
update the physical-volume flag; an unsupported volume type returns -1, but
the media type has already been overwritten at that point. -/
def libewf_set_write_media_type (ih : InternalHandle) (media_type volume_type : Nat) :
    Int × InternalHandle :=
  match ih.media with
  | none => (-1, ih)
  | some media =>
    let media1 := { media with media_type := media_type }
    if volume_type = LIBEWF_VOLUME_TYPE_LOGICAL then
      let media2 := { media1 with media_flags := media1.media_flags &&& 253 }
      (1, { ih with media := some media2 })
    else if volume_type = LIBEWF_VOLUME_TYPE_PHYSICAL then
      let media2 := { media1 with media_flags := media1.media_flags ||| EWF_MEDIA_FLAGS_IS_PHYSICAL }
      (1, { ih with media := some media2 })
    else
      (-1, { ih with media := some media1 })

/-- Embedding of `libewf_set_write_format` (src/libewf/libewf_file.c:1801): stores the
format on the handle; the only guard in the source is the NULL-handle check,
so on a non-NULL handle the call always succeeds. -/
def libewf_set_write_format (ih : InternalHandle) (format : Nat) :
    Int × InternalHandle :=
  (1, { ih with format := format })

/-- Embedding of `libewf_set_write_input_size` (src/libewf/libewf_file.c:1823). -/
def libewf_set_write_input_size (ih : InternalHandle) (input_write_size : Nat) :
    Int × InternalHandle :=
  match ih.write with
  | none => (-1, ih)
  | some w =>
    if w.values_initialized ≠ 0 then
      (-1, ih)
    else if input_write_size > INT64_MAX then
      (-1, ih)
    else
      (1, { ih with write := some { w with input_write_size := input_write_size } })

/-- Embedding of `libewf_get_md5_hash` (src/libewf/libewf_file.c:877): when no MD5 hash is
set the function returns 0 before looking at the output arguments; once a
hash is set, a NULL buffer or a size below 16 yields -1, and otherwise the
16 stored bytes are returned. -/
def libewf_get_md5_hash (handle : Option InternalHandle)
    (md5_hash : Option (List Nat)) (size : Nat) : Int × Option (List Nat) :=
  match handle with
  | none => (-1, none)
  | some ih =>
    if ih.md5_hash_set = 0 then
      (0, none)
    else
      match md5_hash with
      | none => (-1, none)
      | some _ =>
        if size < EWF_DIGEST_HASH_SIZE_MD5 then
          (-1, none)
        else
          (1, some (ih.md5_hash.take 16))

/-- Embedding of `libewf_add_acquiry_error` (src/libewf/libewf_file.c:2071): requires the
media sub-handle and a non-negative sector; with no list yet, allocates a
fresh one-entry list; otherwise scans the first `acquiry_amount_of_errors`
entries for the sector, returning 1 unchanged when found, and appends the
entry at index `acquiry_amount_of_errors` after growing the list when not.
In every state reachable through this function the count equals the list
length, so the append lands at the end. -/
def libewf_add_acquiry_error (ih : InternalHandle) (sector : Int)
    (amount_of_sectors : Nat) : Int × InternalHandle :=
  match ih.media with
  | none => (-1, ih)
  | some _ =>
    if sector ≤ -1 then
      (-1, ih)
    else
      match ih.acquiry_error_sectors with
      | none =>
        (1, { ih with
          acquiry_error_sectors := some [⟨sector, amount_of_sectors⟩],
          acquiry_amount_of_errors := ih.acquiry_amount_of_errors + 1 })
      | some sectors =>
        if (sectors.take ih.acquiry_amount_of_errors).any
            (fun e => e.sector == sector) then
          (1, ih)
        else
          (1, { ih with
            acquiry_error_sectors :=
              some ((sectors.take ih.acquiry_amount_of_errors)
                ++ [⟨sector, amount_of_sectors⟩]),
            acquiry_amount_of_errors := ih.acquiry_amount_of_errors + 1 })

/-- Embedding of `libewf_add_crc_error` (src/libewf/libewf_file.c:2140): requires the media
and read sub-handles; with no list yet, allocates a fresh one-entry list;
otherwise scans the first `crc_amount_of_errors` entries for the sector,
returning 1 unchanged when found, and appends the entry when not. -/
def libewf_add_crc_error (ih : InternalHandle) (sector : Int)
    (amount_of_sectors : Nat) : Int × InternalHandle :=
  match ih.media with
  | none => (-1, ih)
  | some _ =>
    match ih.read with
    | none => (-1, ih)
    | some r =>
      match r.crc_error_sectors with
      | none =>
        (1, { ih with read := some { r with
          crc_error_sectors := some [⟨sector, amount_of_sectors⟩],
          crc_amount_of_errors := r.crc_amount_of_errors + 1 } })
      | some sectors =>
        if (sectors.take r.crc_amount_of_errors).any
            (fun e => e.sector == sector) then
          (1, ih)
        else
          (1, { ih with read := some { r with
            crc_error_sectors :=
              some ((sectors.take r.crc_amount_of_errors)
                ++ [⟨sector, amount_of_sectors⟩]),
            crc_amount_of_errors := r.crc_amount_of_errors + 1 } })

/-- The xheader parse step of `libewf_parse_header_values`
(src/libewf/libewf_file.c:1974): `libewf_header_values_parse_xheader` is
attempted only when the handle holds an xheader.  The parse function itself
lives in `libewf_header_values.c`, which is not under `src/`, so it is an
uninterpreted parameter taking the raw data, its size and the date format. -/
def try_parse_xheader (parse_xheader : List Nat → Nat → Nat → Option ValuesTable)
    (ih : InternalHandle) (date_format : Nat) : Option ValuesTable :=
  match ih.xheader with
  | some data => parse_xheader data ih.xheader_size date_format
  | none => none

/-- The header2 parse step of `libewf_parse_header_values`
(src/libewf/libewf_file.c:1981): attempted only when the handle holds a
header2; the parse function is an uninterpreted parameter. -/
def try_parse_header2 (parse_header2 : List Nat → Nat → Nat → Option ValuesTable)
    (ih : InternalHandle) (date_format : Nat) : Option ValuesTable :=
  match ih.header2 with
  | some data => parse_header2 data ih.header2_size date_format
  | none => none

/-- The header parse step of `libewf_parse_header_values`
(src/libewf/libewf_file.c:1989): attempted only when the handle holds a
header; the parse function is an uninterpreted parameter. -/
def try_parse_header (parse_header : List Nat → Nat → Nat → Option ValuesTable)
    (ih : InternalHandle) (date_format : Nat) : Option ValuesTable :=
  match ih.header with
  | some data => parse_header data ih.header_size date_format
  | none => none

/-- Test from src/libewf/libewf_file.c:2017: the acquiry software version
value of a header values table is present and its first character is '3'. -/
def acquiry_software_version_is_3 (table : ValuesTable) : Bool :=
  match table.values.getD LIBEWF_HEADER_VALUES_INDEX_ACQUIRY_SOFTWARE_VERSION none with
  | some (c :: _) => c == '3'
  | some [] => false
  | none => false

/-- Lifting of `acquiry_software_version_is_3` to the optional header values
field of a handle. -/
def handle_acquiry_software_version_is_3 : Option ValuesTable → Bool
  | some table => acquiry_software_version_is_3 table
  | none => false

/-- The header-selection chain of `libewf_parse_header_values`
(src/libewf/libewf_file.c:1974): the xheader is attempted first, the header2
only when that yielded no values, and the header only when both earlier
steps yielded no values. -/
def parse_available_headers
    (parse_xheader parse_header2 parse_header : List Nat → Nat → Nat → Option ValuesTable)
    (ih : InternalHandle) (date_format : Nat) : Option ValuesTable :=
  match try_parse_xheader parse_xheader ih date_format with
  | some table => some table
  | none =>
    match try_parse_header2 parse_header2 ih date_format with
    | some table => some table
    | none => try_parse_header parse_header ih date_format

/-- Embedding of `libewf_parse_header_values` (src/libewf/libewf_file.c:1959),
continued: dispatch on the parse outcome, replacement of the handle's header
values on success, and the silent EnCase2-to-EnCase3 format upgrade keyed on
the acquiry software version (src/libewf/libewf_file.c:2016). -/
def libewf_parse_header_values
    (parse_xheader parse_header2 parse_header : List Nat → Nat → Nat → Option ValuesTable)
    (handle : Option InternalHandle) (date_format : Nat) :
    Int × Option InternalHandle :=
  match handle with
  | none => (-1, none)
  | some ih =>
    match parse_available_headers parse_xheader parse_header2 parse_header ih date_format with
    | none => (-1, some ih)
    | some table =>
      let ih1 := { ih with header_values := some table }
      if ih1.format = LIBEWF_FORMAT_ENCASE2 ∧ acquiry_software_version_is_3 table then
        (1, some { ih1 with format := LIBEWF_FORMAT_ENCASE3 })
      else
        (1, some ih1)

/-- The write gate shared by the geometry and write setters of
`libewf_file.c`: the write sub-handle is absent, or its write values have
been initialized (src/libewf/libewf_file.c:1405, 1450, 1660, 1844). -/
def write_gate_closed (ih : InternalHandle) : Bool :=
  match ih.write with
  | none => true
  | some w => w.values_initialized != 0

/-- A sample media geometry used by concrete witnesses. -/
def sample_media : MediaValues :=
  { sectors_per_chunk := 64
    bytes_per_sector := 512
    amount_of_sectors := 8
    chunk_size := 512
    error_granularity := 64
    media_size := 4096
    media_type := 0
    media_flags := 0 }

/-- A sample write sub-handle, not yet initialized, used by witnesses. -/
def sample_write : WriteValues :=
  { values_initialized := 0
    write_finalized := 0
    segment_file_size := 1048576
    input_write_size := 0
    compress_empty_block := 0
    amount_of_chunks := 0 }

/-- A sample read sub-handle with an empty CRC error list. -/
def sample_read : ReadValues :=
  { crc_error_sectors := none
    crc_amount_of_errors := 0
    wipe_on_error := 1 }

/-- A sample handle with a media sub-handle and neither read nor write
sub-handle, used as a base by concrete witnesses and counterexamples. -/
def sample_handle : InternalHandle :=
  { media := some sample_media
    read := none
    write := none
    format := 0
    compression_level := 0
    guid := List.replicate 16 0
    md5_hash := List.replicate 16 0
    md5_hash_set := 0
    acquiry_error_sectors := none
    acquiry_amount_of_errors := 0
    header_values := none
    xheader := none
    xheader_size := 0
    header2 := none
    header2_size := 0
    header := none
    header_size := 0
    current_chunk := 0
    current_chunk_offset := 0 }

/-- C5: `libewf_open` returns NULL (no handle is created) whenever the
filenames array is NULL, the file amount is less than 1, or the flags
contain neither the READ flag nor the WRITE flag
(src/libewf/libewf_file.c:149, 156, 163). -/
theorem open_invalid_arguments_return_null
    (filenames : Option (List (List Char))) (file_amount flags : Nat)
    (body : Option InternalHandle)
    (h : filenames = none ∨ file_amount < 1 ∨
      (flags &&& LIBEWF_FLAG_READ ≠ LIBEWF_FLAG_READ ∧
       flags &&& LIBEWF_FLAG_WRITE ≠ LIBEWF_FLAG_WRITE)) :
    libewf_open filenames file_amount flags body = none := by
  cases filenames with
  | none => rfl
  | some fs =>
    rcases h with h | h | h
    · exact absurd h (by simp)
    · simp [libewf_open, h]
    · by_cases hfa : file_amount < 1
      · simp [libewf_open, hfa]
      · simp [libewf_open, hfa, h.1, h.2]

/-- Witness for C5 at a concrete input: one filename, file amount 0. -/
theorem open_invalid_arguments_return_null_witness :
    libewf_open (some [['a']]) 0 1 (some sample_handle) = none :=
  open_invalid_arguments_return_null (some [['a']]) 0 1 (some sample_handle)
    (Or.inr (Or.inl (by decide)))

/-- A media geometry whose chunk count overflows the INT32_MAX guard of
`libewf_seek_offset`: chunk size 1 byte, media size 2^32 bytes. -/
def overflow_media : MediaValues :=
  { sample_media with chunk_size := 1, media_size := 4294967296 }

/-- A handle holding `overflow_media`, used to refute claim C1 as stated. -/
def overflow_handle : InternalHandle :=
  { sample_handle with media := some overflow_media }

/-- C1 counterexample: a handle with a media sub-handle and an offset with
0 ≤ offset < media_size on which `libewf_seek_offset` returns -1 instead of
the offset — the guard `chunk >= INT32_MAX` at src/libewf/libewf_file.c:321
fires because 2147483647 / 1 ≥ INT32_MAX. -/
theorem seek_offset_in_range_fails_counterexample :
    overflow_handle.media = some overflow_media ∧
    (0 : Int) ≤ 2147483647 ∧
    (2147483647 : Int) < (overflow_media.media_size : Int) ∧
    libewf_seek_offset (some overflow_handle) 2147483647 =
      (-1, some overflow_handle) := by
  refine ⟨rfl, by decide, by decide, ?_⟩
  decide

/-- C1 (amended): for a handle with a media sub-handle of nonzero chunk size
and 0 ≤ offset < media_size, provided the resolved chunk number
offset / chunk_size and intra-chunk offset offset % chunk_size are both
below INT32_MAX, `libewf_seek_offset` returns the offset and stores the
chunk number and the intra-chunk offset on the handle; for offset < 0 or
offset ≥ media_size it returns -1 and leaves the handle unchanged. -/
theorem seek_offset_spec (ih : InternalHandle) (media : MediaValues)
    (hm : ih.media = some media) (hcs : 0 < media.chunk_size) (offset : Int) :
    (0 ≤ offset → offset < (media.media_size : Int) →
      offset.toNat / media.chunk_size < INT32_MAX →
      offset.toNat % media.chunk_size < INT32_MAX →
      libewf_seek_offset (some ih) offset =
        (offset, some { ih with
          current_chunk := offset.toNat / media.chunk_size,
          current_chunk_offset := offset.toNat % media.chunk_size })) ∧
    ((offset < 0 ∨ (media.media_size : Int) ≤ offset) →
      libewf_seek_offset (some ih) offset = (-1, some ih)) := by
  constructor
  · intro h0 hsize hdiv hmod
    simp only [libewf_seek_offset, hm]
    rw [if_neg (by omega), if_neg (by omega), if_neg (by omega)]
    simp only [libewf_segment_file_seek_chunk_offset]
    rw [if_neg (by decide), if_neg (by omega), hm]
  · intro h
    simp only [libewf_seek_offset, hm]
    rcases h with h | h
    · rw [if_pos (by omega)]
    · by_cases hneg : offset ≤ -1
      · rw [if_pos hneg]
      · rw [if_neg hneg, if_pos (by omega)]

/-- Witness for the amended C1 at a concrete input: chunk size 512, media
size 4096, seek to 1000 resolves chunk 1 and intra-chunk offset 488. -/
theorem seek_offset_spec_witness :
    libewf_seek_offset (some sample_handle) 1000 =
      (1000, some { sample_handle with
        current_chunk := 1, current_chunk_offset := 488 }) := by
  have h := (seek_offset_spec sample_handle sample_media rfl (by decide) 1000).1
    (by decide) (by decide) (by decide) (by decide)
  exact h

/-- C2 (amended): the setters `libewf_set_sectors_per_chunk`,
`libewf_set_bytes_per_sector`, `libewf_set_write_segment_file_size` and
`libewf_set_write_input_size` are only valid on a write-mode handle before
write initialization — with the write sub-handle absent or the write values
initialized they return -1 and leave the handle unchanged — whereas
`libewf_set_write_format` performs no such check and sets the format
unconditionally. -/
theorem setters_gated_before_write_initialization (ih : InternalHandle)
    (hg : write_gate_closed ih = true) :
    (∀ v, libewf_set_sectors_per_chunk ih v = (-1, ih)) ∧
    (∀ v, libewf_set_bytes_per_sector ih v = (-1, ih)) ∧
    (∀ v, libewf_set_write_segment_file_size ih v = (-1, ih)) ∧
    (∀ v, libewf_set_write_input_size ih v = (-1, ih)) ∧
    (∀ f, libewf_set_write_format ih f = (1, { ih with format := f })) := by
  have hgate : ih.write = none ∨
      ∃ w, ih.write = some w ∧ w.values_initialized ≠ 0 := by
    unfold write_gate_closed at hg
    cases hw : ih.write with
    | none => exact Or.inl rfl
    | some w =>
      rw [hw] at hg
      simp only [bne_iff_ne, ne_eq, decide_eq_true_eq] at hg
      exact Or.inr ⟨w, rfl, hg⟩
  refine ⟨?_, ?_, ?_, ?_, fun f => rfl⟩
  · intro v
    cases hmv : ih.media with
    | none => simp [libewf_set_sectors_per_chunk, hmv]
    | some media =>
      by_cases hv : v = 0 ∨ v > INT32_MAX
      · simp [libewf_set_sectors_per_chunk, hmv, hv]
      · rcases hgate with hw | ⟨w, hw, hwi⟩
        · simp [libewf_set_sectors_per_chunk, hmv, hv, hw]
        · simp [libewf_set_sectors_per_chunk, hmv, hv, hw, hwi]
  · intro v
    cases hmv : ih.media with
    | none => simp [libewf_set_bytes_per_sector, hmv]
    | some media =>
      by_cases hv : v = 0 ∨ v > INT32_MAX
      · simp [libewf_set_bytes_per_sector, hmv, hv]
      · rcases hgate with hw | ⟨w, hw, hwi⟩
        · simp [libewf_set_bytes_per_sector, hmv, hv, hw]
        · simp [libewf_set_bytes_per_sector, hmv, hv, hw, hwi]
  · intro v
    rcases hgate with hw | ⟨w, hw, hwi⟩
    · simp [libewf_set_write_segment_file_size, hw]
    · simp [libewf_set_write_segment_file_size, hw, hwi]
  · intro v
    rcases hgate with hw | ⟨w, hw, hwi⟩
    · simp [libewf_set_write_input_size, hw]
    · simp [libewf_set_write_input_size, hw, hwi]

/-- C2 counterexample: on a handle without a write sub-handle (so the gate
the claim requires is closed), `libewf_set_write_format` does not fail: it
returns 1 and overwrites the format (src/libewf/libewf_file.c:1815 performs
no write-gate check). -/
theorem set_write_format_not_gated_counterexample :
    write_gate_closed sample_handle = true ∧
    libewf_set_write_format sample_handle 9 ≠ (-1, sample_handle) ∧
    (libewf_set_write_format sample_handle 9).1 = 1 ∧
    (libewf_set_write_format sample_handle 9).2.format = 9 := by
  decide

/-- Witness for the amended C2 at a concrete input: the gated setters fail
on `sample_handle`, whose write sub-handle is absent. -/
theorem setters_gated_before_write_initialization_witness :
    libewf_set_sectors_per_chunk sample_handle 64 = (-1, sample_handle) ∧
    libewf_set_write_segment_file_size sample_handle 1048576 = (-1, sample_handle) := by
  have h := setters_gated_before_write_initialization sample_handle (by decide)
  exact ⟨h.1 64, h.2.2.1 1048576⟩

/-- C3 counterexample: `libewf_set_write_media_type` called with volume type
9 (neither LOGICAL nor PHYSICAL) returns -1 but does not leave the handle's
state unchanged — src/libewf/libewf_file.c:1776 stores the media type before
the volume type is validated, so the media type is already overwritten. -/
theorem set_write_media_type_mutates_on_failure_counterexample :
    (9 : Nat) ≠ LIBEWF_VOLUME_TYPE_LOGICAL ∧
    (9 : Nat) ≠ LIBEWF_VOLUME_TYPE_PHYSICAL ∧
    (libewf_set_write_media_type sample_handle 5 9).1 = -1 ∧
    (libewf_set_write_media_type sample_handle 5 9).2 ≠ sample_handle ∧
    (libewf_set_write_media_type sample_handle 5 9).2.media.map MediaValues.media_type
      = some 5 := by
  decide

/-- C3 (amended): `libewf_set_write_media_type` called with a volume type
that is neither LOGICAL nor PHYSICAL returns -1 and leaves the media flags
(and every other handle field) as they were, but the media type has already
been overwritten with the new value at that point. -/
theorem set_write_media_type_invalid_volume_type (ih : InternalHandle)
    (media : MediaValues) (hm : ih.media = some media)
    (media_type volume_type : Nat)
    (hv1 : volume_type ≠ LIBEWF_VOLUME_TYPE_LOGICAL)
    (hv2 : volume_type ≠ LIBEWF_VOLUME_TYPE_PHYSICAL) :
    libewf_set_write_media_type ih media_type volume_type =
      (-1, { ih with media := some { media with media_type := media_type } }) := by
  simp [libewf_set_write_media_type, hm, hv1, hv2]

/-- Witness for the amended C3 at a concrete input. -/
theorem set_write_media_type_invalid_volume_type_witness :
    libewf_set_write_media_type sample_handle 5 9 =
      (-1, { sample_handle with
        media := some { sample_media with media_type := 5 } }) :=
  set_write_media_type_invalid_volume_type sample_handle sample_media rfl 5 9
    (by decide) (by decide)

/-- Sixteen bytes of value 1, a concrete GUID used by counterexamples. -/
def guid_bytes_a : List Nat := List.replicate 16 1

/-- Sixteen bytes of value 2, a concrete GUID used by counterexamples. -/
def guid_bytes_b : List Nat := List.replicate 16 2

/-- C4 counterexample: on a handle without a write sub-handle, a second call
to `libewf_set_guid` after a successful first one does not return -1 — it
returns 1 and overwrites the stored GUID (src/libewf/libewf_file.c:1494
only blocks the setter once write values are initialized; there is no
write-once flag for the GUID). -/
theorem set_guid_write_once_counterexample :
    (libewf_set_guid sample_handle (some guid_bytes_a) 16).1 = 1 ∧
    libewf_set_guid (libewf_set_guid sample_handle (some guid_bytes_a) 16).2
        (some guid_bytes_b) 16 =
      (1, { sample_handle with guid := guid_bytes_b }) ∧
    guid_bytes_b ≠ guid_bytes_a := by
  decide

/-- C4 (amended): the MD5 hash is write-once — after a successful
`libewf_set_md5_hash`, any second call returns -1 with the stored value
unchanged — but the GUID is not: `libewf_set_guid` succeeds and overwrites
the stored 16 bytes whenever the write sub-handle is absent or its values
are not yet initialized. -/
theorem md5_write_once_guid_rewritable (ih : InternalHandle) :
    (∀ buffer size ihA, libewf_set_md5_hash ih buffer size = (1, ihA) →
      ∀ buffer2 size2, libewf_set_md5_hash ihA buffer2 size2 = (-1, ihA)) ∧
    (∀ buffer size, 16 ≤ size → write_gate_closed ih = false →
      ∃ w, ih.write = some w ∧ w.values_initialized = 0 ∧
        libewf_set_guid ih (some buffer) size =
          (1, { ih with guid := buffer.take 16 })) ∧
    (∀ buffer size, 16 ≤ size → ih.write = none →
      libewf_set_guid ih (some buffer) size =
        (1, { ih with guid := buffer.take 16 })) := by
  refine ⟨?_, ?_, ?_⟩
  · intro buffer size ihA hset buffer2 size2
    cases buffer with
    | none => simp [libewf_set_md5_hash] at hset
    | some b =>
      by_cases hs : size < EWF_DIGEST_HASH_SIZE_MD5
      · simp [libewf_set_md5_hash, hs] at hset
      · by_cases hm5 : ih.md5_hash_set ≠ 0
        · simp [libewf_set_md5_hash, hs, hm5] at hset
        · have hihA : ihA = { ih with md5_hash := b.take 16, md5_hash_set := 1 } := by
            simp [libewf_set_md5_hash, hs, hm5] at hset
            exact hset.symm
          subst hihA
          cases buffer2 with
          | none => rfl
          | some b2 =>
            by_cases hs2 : size2 < EWF_DIGEST_HASH_SIZE_MD5
            · simp [libewf_set_md5_hash, hs2]
            · simp [libewf_set_md5_hash, hs2]
  · intro buffer size hsize hg
    unfold write_gate_closed at hg
    cases hw : ih.write with
    | none => rw [hw] at hg; simp at hg
    | some w =>
      rw [hw] at hg
      simp only [bne_eq_false_iff_eq] at hg
      refine ⟨w, rfl, hg, ?_⟩
      simp [libewf_set_guid, hw, hg, Nat.not_lt.mpr hsize]
  · intro buffer size hsize hw
    simp [libewf_set_guid, hw, Nat.not_lt.mpr hsize]

/-- Witness for the amended C4 at a concrete input: after setting the MD5
hash on `sample_handle`, a second set fails with the stored hash kept. -/
theorem md5_write_once_guid_rewritable_witness :
    libewf_set_md5_hash
        { sample_handle with md5_hash := guid_bytes_a, md5_hash_set := 1 }
        (some guid_bytes_b) 16 =
      (-1, { sample_handle with md5_hash := guid_bytes_a, md5_hash_set := 1 }) :=
  (md5_write_once_guid_rewritable sample_handle).1 (some guid_bytes_a) 16
    { sample_handle with md5_hash := guid_bytes_a, md5_hash_set := 1 }
    (by decide) (some guid_bytes_b) 16

/-- C6: on a non-NULL handle opened for writing whose write has not been
finalized, `libewf_close` performs the write finalization before closing
the segment files; it returns 0 on success and -1 when the handle is NULL
or closing the segment files fails (src/libewf/libewf_file.c:242). -/
theorem close_finalizes_unfinalized_write (ih : InternalHandle)
    (w : WriteValues) (hw : ih.write = some w) (hf : w.write_finalized = 0) :
    (∀ close_all_ok, libewf_close none close_all_ok = (-1, [])) ∧
    libewf_close (some ih) true =
      (0, [CloseEvent.write_finalize, CloseEvent.close_segment_files,
           CloseEvent.free_handle]) ∧
    libewf_close (some ih) false =
      (-1, [CloseEvent.write_finalize, CloseEvent.close_segment_files]) := by
  refine ⟨fun close_all_ok => rfl, ?_, ?_⟩ <;> simp [libewf_close, hw, hf]

/-- Witness for C6 at a concrete input: a handle with an unfinalized write
sub-handle is closed; the finalize step precedes the segment-file close. -/
theorem close_finalizes_unfinalized_write_witness :
    libewf_close (some { sample_handle with write := some sample_write }) true =
      (0, [CloseEvent.write_finalize, CloseEvent.close_segment_files,
           CloseEvent.free_handle]) :=
  (close_finalizes_unfinalized_write
    { sample_handle with write := some sample_write } sample_write rfl rfl).2.1

/-- C9: `libewf_get_md5_hash` on a non-NULL handle with no MD5 hash set
returns 0 without validating the output arguments — even a NULL buffer or a
size below 16 — whereas those same arguments yield -1 once a hash is set
(src/libewf/libewf_file.c:891 returns before the argument checks at 895 and
902). -/
theorem get_md5_hash_skips_argument_validation (ih : InternalHandle) :
    (ih.md5_hash_set = 0 →
      ∀ buffer size, libewf_get_md5_hash (some ih) buffer size = (0, none)) ∧
    (ih.md5_hash_set ≠ 0 →
      (∀ size, libewf_get_md5_hash (some ih) none size = (-1, none)) ∧
      (∀ buffer size, size < EWF_DIGEST_HASH_SIZE_MD5 →
        libewf_get_md5_hash (some ih) (some buffer) size = (-1, none))) := by
  constructor
  · intro h0 buffer size
    simp [libewf_get_md5_hash, h0]
  · intro hset
    constructor
    · intro size
      simp [libewf_get_md5_hash, hset]
    · intro buffer size hsize
      simp [libewf_get_md5_hash, hset, hsize]

/-- Witness for C9 at a concrete input: no hash set, NULL buffer, size 0,
and the call still returns 0; with a hash set the same arguments fail. -/
theorem get_md5_hash_skips_argument_validation_witness :
    libewf_get_md5_hash (some sample_handle) none 0 = (0, none) ∧
    libewf_get_md5_hash (some { sample_handle with md5_hash_set := 1 }) none 0 =
      (-1, none) := by
  constructor
  · exact (get_md5_hash_skips_argument_validation sample_handle).1 (by decide) none 0
  · exact ((get_md5_hash_skips_argument_validation
      { sample_handle with md5_hash_set := 1 }).2 (by decide)).1 0

/-- C7: `libewf_add_acquiry_error` and `libewf_add_crc_error` keep at most
one entry per start sector — in a reachable state (the stored count equals
the list length, and an absent list means count 0), a call with a start
sector already in the corresponding list returns 1 and leaves the list and
its count unchanged, and otherwise appends the entry and increases the
count by exactly 1 (src/libewf/libewf_file.c:2071 and 2140). -/
theorem add_error_sector_dedup (ih : InternalHandle) (media : MediaValues)
    (hm : ih.media = some media) (sector : Int) (n : Nat) :
    (0 ≤ sector →
      (ih.acquiry_error_sectors = none → ih.acquiry_amount_of_errors = 0 →
        libewf_add_acquiry_error ih sector n =
          (1, { ih with acquiry_error_sectors := some [⟨sector, n⟩],
                        acquiry_amount_of_errors := 1 })) ∧
      (∀ l, ih.acquiry_error_sectors = some l →
          ih.acquiry_amount_of_errors = l.length →
        ((∃ e ∈ l, e.sector = sector) →
          libewf_add_acquiry_error ih sector n = (1, ih)) ∧
        ((∀ e ∈ l, e.sector ≠ sector) →
          libewf_add_acquiry_error ih sector n =
            (1, { ih with acquiry_error_sectors := some (l ++ [⟨sector, n⟩]),
                          acquiry_amount_of_errors := l.length + 1 })))) ∧
    (∀ r, ih.read = some r →
      (r.crc_error_sectors = none → r.crc_amount_of_errors = 0 →
        libewf_add_crc_error ih sector n =
          (1, { ih with read := some { r with
            crc_error_sectors := some [⟨sector, n⟩],
            crc_amount_of_errors := 1 } })) ∧
      (∀ l, r.crc_error_sectors = some l → r.crc_amount_of_errors = l.length →
        ((∃ e ∈ l, e.sector = sector) →
          libewf_add_crc_error ih sector n = (1, ih)) ∧
        ((∀ e ∈ l, e.sector ≠ sector) →
          libewf_add_crc_error ih sector n =
            (1, { ih with read := some { r with
              crc_error_sectors := some (l ++ [⟨sector, n⟩]),
              crc_amount_of_errors := l.length + 1 } })))) := by
  constructor
  · intro hs
    constructor
    · intro hnone hcount
      simp only [libewf_add_acquiry_error, hm, hnone]
      rw [if_neg (by omega), hcount]
    · intro l hsome hcount
      have hany : (l.any fun e => e.sector == sector) = true ↔
          ∃ e ∈ l, e.sector = sector := by
        simp [List.any_eq_true]
      constructor
      · intro hex
        simp only [libewf_add_acquiry_error, hm, hsome]
        rw [if_neg (by omega), hcount, List.take_length, if_pos (hany.mpr hex)]
      · intro hall
        simp only [libewf_add_acquiry_error, hm, hsome]
        rw [if_neg (by omega), hcount, List.take_length, if_neg ?hnotany]
        case hnotany =>
          intro hc
          rcases hany.mp hc with ⟨e, he, hes⟩
          exact hall e he hes
  · intro r hr
    constructor
    · intro hnone hcount
      simp only [libewf_add_crc_error, hm, hr, hnone]
      rw [hcount]
    · intro l hsome hcount
      have hany : (l.any fun e => e.sector == sector) = true ↔
          ∃ e ∈ l, e.sector = sector := by
        simp [List.any_eq_true]
      constructor
      · intro hex
        simp only [libewf_add_crc_error, hm, hr, hsome]
        rw [hcount, List.take_length, if_pos (hany.mpr hex)]
      · intro hall
        simp only [libewf_add_crc_error, hm, hr, hsome]
        rw [hcount, List.take_length, if_neg ?hnotany]
        case hnotany =>
          intro hc
          rcases hany.mp hc with ⟨e, he, hes⟩
          exact hall e he hes

/-- A handle holding one acquiry error at sector 5, used by the C7 witness. -/
def acquiry_handle : InternalHandle :=
  { sample_handle with
    acquiry_error_sectors := some [⟨5, 2⟩]
    acquiry_amount_of_errors := 1 }

/-- Witness for C7 at concrete inputs: adding sector 5 again is a deduped
no-op, adding fresh sector 7 appends and bumps the count to 2. -/
theorem add_error_sector_dedup_witness :
    libewf_add_acquiry_error acquiry_handle 5 3 = (1, acquiry_handle) ∧
    libewf_add_acquiry_error acquiry_handle 7 3 =
      (1, { acquiry_handle with
        acquiry_error_sectors := some [⟨5, 2⟩, ⟨7, 3⟩],
        acquiry_amount_of_errors := 2 }) := by
  constructor
  · exact (((add_error_sector_dedup acquiry_handle sample_media rfl 5 3).1
      (by decide)).2 [⟨5, 2⟩] rfl rfl).1 (by decide)
  · exact (((add_error_sector_dedup acquiry_handle sample_media rfl 7 3).1
      (by decide)).2 [⟨5, 2⟩] rfl rfl).2 (by decide)

/-- C8: `libewf_parse_header_values` parses the first available header in
the preference order xheader, header2, header — a later header matters only
if every earlier one is absent or yielded no values (the result does not
depend on the later parsers otherwise) — and when no header yields values it
returns -1 with the handle, and so its existing header values, kept
(src/libewf/libewf_file.c:1974-2003). -/
theorem parse_header_values_preference_order
    (parse_xheader parse_header2 parse_header : List Nat → Nat → Nat → Option ValuesTable)
    (ih : InternalHandle) (date_format : Nat) :
    (try_parse_xheader parse_xheader ih date_format = none →
     try_parse_header2 parse_header2 ih date_format = none →
     try_parse_header parse_header ih date_format = none →
      libewf_parse_header_values parse_xheader parse_header2 parse_header
        (some ih) date_format = (-1, some ih)) ∧
    (∀ table, try_parse_xheader parse_xheader ih date_format = some table →
      (libewf_parse_header_values parse_xheader parse_header2 parse_header
        (some ih) date_format).1 = 1 ∧
      ∀ parse_header2A parse_headerA,
        libewf_parse_header_values parse_xheader parse_header2A parse_headerA
          (some ih) date_format =
        libewf_parse_header_values parse_xheader parse_header2 parse_header
          (some ih) date_format) ∧
    (try_parse_xheader parse_xheader ih date_format = none →
     ∀ table, try_parse_header2 parse_header2 ih date_format = some table →
      (libewf_parse_header_values parse_xheader parse_header2 parse_header
        (some ih) date_format).1 = 1 ∧
      ∀ parse_headerA,
        libewf_parse_header_values parse_xheader parse_header2 parse_headerA
          (some ih) date_format =
        libewf_parse_header_values parse_xheader parse_header2 parse_header
          (some ih) date_format) := by
  refine ⟨?_, ?_, ?_⟩
  · intro h1 h2 h3
    simp [libewf_parse_header_values, parse_available_headers, h1, h2, h3]
  · intro table h1
    constructor
    · simp only [libewf_parse_header_values, parse_available_headers, h1]
      split <;> rfl
    · intro parse_header2A parse_headerA
      simp only [libewf_parse_header_values, parse_available_headers, h1]
  · intro h1 table h2
    constructor
    · simp only [libewf_parse_header_values, parse_available_headers, h1, h2]
      split <;> rfl
    · intro parse_headerA
      simp only [libewf_parse_header_values, parse_available_headers, h1, h2]

/-- A parse function yielding no values, used by witnesses. -/
def parse_nothing : List Nat → Nat → Nat → Option ValuesTable :=
  fun _ _ _ => none

/-- Witness for C8 at a concrete input: all three headers present but all
parses yield no values, so the call fails and the handle is kept. -/
theorem parse_header_values_preference_order_witness :
    libewf_parse_header_values parse_nothing parse_nothing parse_nothing
      (some { sample_handle with
        xheader := some [120], header2 := some [104], header := some [104] }) 0 =
      (-1, some { sample_handle with
        xheader := some [120], header2 := some [104], header := some [104] }) :=
  (parse_header_values_preference_order parse_nothing parse_nothing parse_nothing
    { sample_handle with
      xheader := some [120], header2 := some [104], header := some [104] } 0).1
    rfl rfl rfl

/-- C10: after a successful `libewf_parse_header_values`, the handle's
format is EnCase3 exactly when the handle was EnCase2 and the freshly parsed
acquiry software version value is present with first character '3', and the
format is unchanged in every other case (src/libewf/libewf_file.c:2016). -/
theorem parse_header_values_format_upgrade
    (parse_xheader parse_header2 parse_header : List Nat → Nat → Nat → Option ValuesTable)
    (ih ihA : InternalHandle) (date_format : Nat)
    (hsucc : libewf_parse_header_values parse_xheader parse_header2 parse_header
      (some ih) date_format = (1, some ihA)) :
    ihA.format =
      if ih.format = LIBEWF_FORMAT_ENCASE2 ∧
          handle_acquiry_software_version_is_3 ihA.header_values = true
      then LIBEWF_FORMAT_ENCASE3
      else ih.format := by
  simp only [libewf_parse_header_values] at hsucc
  split at hsucc
  · simp at hsucc
  · rename_i table heq
    split at hsucc
    · rename_i hcond
      simp only [Prod.mk.injEq, Option.some.injEq] at hsucc
      rcases hsucc with ⟨-, hA⟩
      subst hA
      rw [if_pos ⟨hcond.1, by
        simpa [handle_acquiry_software_version_is_3] using hcond.2⟩]
    · rename_i hcond
      simp only [Prod.mk.injEq, Option.some.injEq] at hsucc
      rcases hsucc with ⟨-, hA⟩
      subst hA
      rw [if_neg (fun hc => hcond ⟨hc.1, by
        simpa [handle_acquiry_software_version_is_3] using hc.2⟩)]

/-- A header values table whose acquiry software version entry is "3", used
by the C10 witness. -/
def version3_table : ValuesTable :=
  { amount := 7, values := List.replicate 6 none ++ [some ['3']] }

/-- A parse function yielding `version3_table`, used by the C10 witness. -/
def parse_version3 : List Nat → Nat → Nat → Option ValuesTable :=
  fun _ _ _ => some version3_table

/-- An EnCase2 handle holding an xheader, used by the C10 witness. -/
def encase2_handle : InternalHandle :=
  { sample_handle with format := LIBEWF_FORMAT_ENCASE2, xheader := some [120] }

/-- The handle produced by a successful parse on `encase2_handle` with the
acquiry software version "3": values stored, format upgraded to EnCase3. -/
def encase2_result : InternalHandle :=
  { encase2_handle with
    header_values := some version3_table
    format := LIBEWF_FORMAT_ENCASE3 }

/-- Witness for C10 at a concrete input: parsing an EnCase2 handle whose
acquiry software version is "3" upgrades the format to EnCase3. -/
theorem parse_header_values_format_upgrade_witness :
    encase2_result.format =
      if encase2_handle.format = LIBEWF_FORMAT_ENCASE2 ∧
          handle_acquiry_software_version_is_3 encase2_result.header_values = true
      then LIBEWF_FORMAT_ENCASE3
      else encase2_handle.format :=
  parse_header_values_format_upgrade parse_version3 parse_nothing parse_nothing
    encase2_handle encase2_result 0 (by decide)
